import Mathlib

/-!
Verification of the response-generation core of DB-Chatlink
(`nl_response_generator.py`, with the user lookup of `db.py` as an
external collaborator).

Text is modelled as lists of character codes (`List Nat`); `strLit`
converts a Lean string literal into that representation.  The Python
string operations used by the source (`lower`, `in`, `split`, `strip`,
`ljust`, `startswith`, `replace`, `title`) are embedded for the ASCII
range, which covers every literal the source matches on.  SQL scalar
values are modelled by `Value` (null, integer, text); fallible Python
code (indexing that can raise `IndexError`) returns `Option`.
-/

/-- Text as a list of character codes. -/
abbrev Str := List Nat

/-- Convert a Lean string literal to its character-code list. -/
def strLit (s : String) : Str := s.data.map Char.toNat

/-- ASCII lower-casing of one character code, as Python `str.lower` acts
on ASCII: codes 65..90 are shifted to 97..122, everything else is kept. -/
def lowerCode (n : Nat) : Nat := if 65 ≤ n ∧ n ≤ 90 then n + 32 else n

/-- Python `s.lower()` (ASCII range). -/
def lowerStr (s : Str) : Str := s.map lowerCode

/-- Python substring test `sub in s`. -/
def pyIn (sub : Str) : Str → Bool
  | [] => sub.isEmpty
  | c :: cs => sub.isPrefixOf (c :: cs) || pyIn sub cs

/-- Core of Python `s.split(sep)` for a non-empty separator, scanning left
to right and consuming non-overlapping occurrences.  The fuel argument
makes the recursion structural; `pySplit` supplies fuel equal to the
length of the scanned text, which is always sufficient because every
step consumes at least one character. -/
def pySplitCore (sep : Str) : Nat → Str → Str → List Str
  | _, [], acc => [acc.reverse]
  | 0, _ :: _, acc => [acc.reverse]
  | fuel + 1, c :: cs, acc =>
    if sep.isPrefixOf (c :: cs) then
      acc.reverse :: pySplitCore sep fuel (cs.drop (sep.length - 1)) []
    else
      pySplitCore sep fuel cs (c :: acc)

/-- Python `s.split(sep)` for a non-empty separator. -/
def pySplit (s sep : Str) : List Str := pySplitCore sep s.length s []

/-- Python whitespace used by `str.strip()` (ASCII range). -/
def isSpaceCode (n : Nat) : Bool := n == 32 || n == 9 || n == 10 || n == 13 || n == 11 || n == 12

/-- Python `s.strip()`: drop whitespace from both ends. -/
def pyStrip (s : Str) : Str := ((s.dropWhile isSpaceCode).reverse.dropWhile isSpaceCode).reverse

/-- Python `s.ljust(w)` with the space character as filler. -/
def ljust (s : Str) (w : Nat) : Str := s ++ List.replicate (w - s.length) 32

/-- Digit-accumulation core of the decimal rendering of a natural number
(the fuel makes the recursion structural; `n + 1` units of fuel always
suffice). -/
def natToStrCore : Nat → Nat → Str → Str
  | 0, _, acc => acc
  | fuel + 1, n, acc =>
    let acc' := (48 + n % 10) :: acc
    if n < 10 then acc' else natToStrCore fuel (n / 10) acc'

/-- Decimal rendering of a natural number, as Python `str`. -/
def natToStr (n : Nat) : Str := natToStrCore (n + 1) n []

/-- Decimal rendering of an integer, as Python `str`. -/
def intToStr : Int → Str
  | Int.ofNat n => natToStr n
  | Int.negSucc n => 45 :: natToStr (n + 1)

/-- ASCII test for a cased (alphabetic) character code, as used by the
embedding of Python `str.title`. -/
def isCasedCode (n : Nat) : Bool := (65 ≤ n && n ≤ 90) || (97 ≤ n && n ≤ 122)

/-- ASCII upper-casing of one character code. -/
def upperCode (n : Nat) : Nat := if 97 ≤ n ∧ n ≤ 122 then n - 32 else n

/-- Walk of Python `str.title`: upper-case a cased character that starts a
run of cased characters, lower-case the other cased characters. -/
def titleCore : Bool → Str → Str
  | _, [] => []
  | prevCased, c :: cs =>
    (if isCasedCode c then (if prevCased then lowerCode c else upperCode c) else c)
      :: titleCore (isCasedCode c) cs

/-- Python `s.title()` (ASCII range). -/
def pyTitle (s : Str) : Str := titleCore false s

/-- A SQL scalar value as handled by `format_value`: null, integer, or
text (the source treats any other kind by generic stringification, which
the claims never exercise). -/
inductive Value where
  | vnone : Value
  | vint : Int → Value
  | vstr : Str → Value
deriving DecidableEq

/-- A data row of a query result. -/
abbrev Row := List Value

/-- `format_value` of `nl_response_generator.py`: null renders as the
text `None`, numbers by their decimal string, text unchanged.  Python
`str(value)` inside an f-string agrees with it on these kinds. -/
def format_value : Value → Str
  | Value.vnone => strLit "None"
  | Value.vint i => intToStr i
  | Value.vstr s => s

/-- Python `value == k` for an integer literal `k`: only integer values
can compare equal to an integer. -/
def valueEqInt (v : Value) (k : Int) : Bool :=
  match v with
  | Value.vint i => i == k
  | _ => false

/-- Aggregate-column test of rule 4 of `identify_query_type`:
`col.lower().startswith(("avg", "sum", "max", "min"))`. -/
def aggColumn (col : Str) : Bool :=
  (strLit "avg").isPrefixOf (lowerStr col) || (strLit "sum").isPrefixOf (lowerStr col) ||
  (strLit "max").isPrefixOf (lowerStr col) || (strLit "min").isPrefixOf (lowerStr col)

/-- Rules 2-6 of `identify_query_type`, the code the nested rule-1 `if`
falls through to (`q` is the already lower-cased question). -/
def classifyRest (q : Str) (columns : List Str) (rows : List Row) : Str :=
  if rows.length == 1 then strLit "single_entity"
  else if pyIn (strLit "list") q || pyIn (strLit "show") q || pyIn (strLit "all") q then strLit "list"
  else if columns.any aggColumn then strLit "aggregation"
  else if rows.length > 1 then strLit "list"
  else strLit "general"

/-- `identify_query_type` of `nl_response_generator.py`: rule 1 is the
nested `if` of the source (keyword check, then shape check; on a failed
shape check control falls through to the later rules). -/
def identify_query_type (question : Str) (columns : List Str) (rows : List Row) : Str :=
  let q := lowerStr question
  if pyIn (strLit "count") q || pyIn (strLit "how many") q then
    if columns.length == 1 && rows.length == 1 then strLit "count"
    else classifyRest q columns rows
  else classifyRest q columns rows

/-- `extract_entity_name` of `nl_response_generator.py`. -/
def extract_entity_name (question : Str) : Str :=
  let q := lowerStr question
  if pyIn (strLit "user") q || pyIn (strLit "student") q then strLit "users"
  else if pyIn (strLit "internship") q || pyIn (strLit "job") q then strLit "internships"
  else if pyIn (strLit "application") q || pyIn (strLit "applied") q then strLit "applications"
  else strLit "items"

/-- One pass of the width loop of `format_tabular_data` over a single
row: `col_widths[i] = max(col_widths[i], len(format_value(val)))`.
`none` models the `IndexError` Python raises when the row is longer than
the width list. -/
def updateWidths : List Nat → Row → Option (List Nat)
  | ws, [] => some ws
  | [], _ :: _ => none
  | w :: ws, v :: vs => (updateWidths ws vs).map (fun t => max w (format_value v).length :: t)

/-- The width loop of `format_tabular_data` over the displayed rows. -/
def foldWidths : List Nat → List Row → Option (List Nat)
  | ws, [] => some ws
  | ws, r :: rs =>
    match updateWidths ws r with
    | none => none
    | some ws' => foldWidths ws' rs

/-- Column widths of `format_tabular_data`: header lengths, widened by
the formatted values of the first `limit` rows only. -/
def computeWidths (columns : List Str) (rows : List Row) (limit : Nat) : Option (List Nat) :=
  foldWidths (columns.map List.length) (rows.take limit)

/-- Header line of `format_tabular_data`. -/
def tableHeader (columns : List Str) (ws : List Nat) : Str :=
  List.intercalate (strLit " | ") (List.zipWith ljust columns ws)

/-- Separator line of `format_tabular_data`. -/
def tableSeparator (columns : List Str) (ws : List Nat) : Str :=
  List.replicate (tableHeader columns ws).length 45

/-- Cells of one data row, each left-justified to its column width;
`none` models the `IndexError` of a row longer than the width list. -/
def formatCells : List Nat → Row → Option (List Str)
  | _, [] => some []
  | [], _ :: _ => none
  | w :: ws, v :: vs => (formatCells ws vs).map (fun t => ljust (format_value v) w :: t)

/-- One rendered data row of `format_tabular_data`. -/
def formatRowLine (ws : List Nat) (r : Row) : Option Str :=
  (formatCells ws r).map (List.intercalate (strLit " | "))

/-- The rendered data rows of `format_tabular_data`. -/
def formatRows (ws : List Nat) : List Row → Option (List Str)
  | [] => some []
  | r :: rs =>
    match formatRowLine ws r, formatRows ws rs with
    | some line, some lines => some (line :: lines)
    | _, _ => none

/-- The `"... and N more rows"` trailer of `format_tabular_data`. -/
def moreRowsLine (n : Nat) : Str := strLit "... and " ++ natToStr n ++ strLit " more rows"

/-- `format_tabular_data` of `nl_response_generator.py`. -/
def format_tabular_data (columns : List Str) (rows : List Row) (limit : Nat) : Option Str :=
  if rows.isEmpty then some (strLit "No data found.")
  else
    match computeWidths columns rows limit with
    | none => none
    | some ws =>
      match formatRows ws (rows.take limit) with
      | none => none
      | some dataLines =>
        let allLines := dataLines ++
          (if limit < rows.length then [moreRowsLine (rows.length - limit)] else [])
        some (tableHeader columns ws ++ [10] ++ tableSeparator columns ws ++ [10] ++
          List.intercalate [10] allLines)

/-- `generate_count_response` of `nl_response_generator.py`; `none`
models the `IndexError` of `rows[0][0]` on a missing first value. -/
def generate_count_response (question : Str) (columns : List Str) (rows : List Row) : Option Str :=
  let entity := extract_entity_name question
  match rows.head? with
  | none => none
  | some r0 =>
    match r0.head? with
    | none => none
    | some count =>
      if valueEqInt count 0 then
        some (strLit "I found no " ++ entity ++ strLit " matching your criteria.")
      else if valueEqInt count 1 then
        some (strLit "There is 1 " ++ entity.dropLast ++ strLit " matching your criteria.")
      else
        some (strLit "There are " ++ format_value count ++ strLit " " ++ entity ++
          strLit " matching your criteria.")

/-- `generate_list_response` of `nl_response_generator.py` (the
apostrophe of the no-match text is the code 39). -/
def generate_list_response (question : Str) (columns : List Str) (rows : List Row) : Option Str :=
  let entity := extract_entity_name question
  if rows.length == 0 then
    some (strLit "I couldn" ++ [39] ++ strLit "t find any " ++ entity ++
      strLit " matching your criteria.")
  else
    match format_tabular_data columns rows 10 with
    | none => none
    | some table =>
      some (strLit "Here are the " ++ natToStr rows.length ++ strLit " " ++ entity ++
        strLit " I found:" ++ strLit "\n\n" ++ table)

/-- Column retitling of `generate_single_entity_response`:
`col.replace('_', ' ').title()`. -/
def titleColumn (col : Str) : Str :=
  pyTitle (col.map (fun c => if c == 95 then 32 else c))

/-- The detail lines of `generate_single_entity_response`; `none` models
the `IndexError` of `result[i]` when the columns outrun the row. -/
def entityDetails : List Str → Row → Option (List Str)
  | [], _ => some []
  | _ :: _, [] => none
  | col :: cols, v :: vs =>
    (entityDetails cols vs).map (fun t => (titleColumn col ++ strLit ": " ++ format_value v) :: t)

/-- `generate_single_entity_response` of `nl_response_generator.py`. -/
def generate_single_entity_response (question : Str) (columns : List Str) (rows : List Row) :
    Option Str :=
  let entity := (extract_entity_name question).dropLast
  match rows.head? with
  | none => none
  | some result =>
    match entityDetails columns result with
    | none => none
    | some details =>
      some (strLit "Here are the details for the " ++ entity ++ strLit ":" ++ strLit "\n\n" ++
        List.intercalate (strLit "\n") details)

/-- `generate_aggregation_response` of `nl_response_generator.py` (the
apostrophe of the intro is the code 39). -/
def generate_aggregation_response (question : Str) (columns : List Str) (rows : List Row) :
    Option Str :=
  let entity := extract_entity_name question
  match format_tabular_data columns rows 10 with
  | none => none
  | some table =>
    some (strLit "Here" ++ [39] ++ strLit "s the requested summary information about " ++
      entity ++ strLit ":" ++ strLit "\n\n" ++ table)

/-- `generate_general_response` of `nl_response_generator.py`. -/
def generate_general_response (question : Str) (columns : List Str) (rows : List Row) :
    Option Str :=
  match format_tabular_data columns rows 10 with
  | none => none
  | some table => some (strLit "Here are the results for your query:" ++ strLit "\n\n" ++ table)

/-- The record returned by the external `fetch_user_details` collaborator
of `db.py`: name, internship and company counts, and the three
`GROUP_CONCAT` company lists (the selected and rejected lists are
nullable). -/
structure UserInfo where
  name : Str
  total_internships : Int
  companies : Int
  company_list : Str
  selected : Option Str
  rejected : Option Str

/-- The `x if x else "None"` truthiness idiom of
`handle_user_details_query`: a null or empty text renders as `None`. -/
def orNoneText (o : Option Str) : Str :=
  match o with
  | none => strLit "None"
  | some s => if s.isEmpty then strLit "None" else s

/-- `handle_user_details_query` of `nl_response_generator.py`, with the
external lookup passed in as `fetch`. -/
def handle_user_details_query (fetch : Str → Option UserInfo) (user_name : Str) : Str :=
  match fetch user_name with
  | none => strLit "No record found for " ++ user_name
  | some u =>
    strLit "\n    Name: " ++ u.name ++
    strLit "\n    Applied in " ++ intToStr u.total_internships ++
    strLit " internships across " ++ intToStr u.companies ++
    strLit " companies: " ++ u.company_list ++
    strLit "\n    Selected in: " ++ orNoneText u.selected ++
    strLit "\n    Rejected in: " ++ orNoneText u.rejected ++
    strLit "\n    "

/-- The literal `"details of"` matched by the dispatcher. -/
def detailsOfLit : Str := strLit "details of"

/-- The username the dispatcher hands to the user-detail lookup:
`question.lower().split("details of")[1].strip()`. -/
def extract_user_name (question : Str) : Str :=
  pyStrip ((pySplit (lowerStr question) detailsOfLit).getD 1 [])

/-- `generate_response` of `nl_response_generator.py`: the `"details of"`
interception, then dispatch on the classified query type. -/
def generate_response (fetch : Str → Option UserInfo) (question : Str) (columns : List Str)
    (rows : List Row) : Option Str :=
  let byType :=
    let query_type := identify_query_type question columns rows
    if query_type = strLit "count" then generate_count_response question columns rows
    else if query_type = strLit "list" then generate_list_response question columns rows
    else if query_type = strLit "single_entity" then
      generate_single_entity_response question columns rows
    else if query_type = strLit "aggregation" then
      generate_aggregation_response question columns rows
    else generate_general_response question columns rows
  if pyIn detailsOfLit (lowerStr question) then
    let parts := pySplit (lowerStr question) detailsOfLit
    if parts.length > 1 then
      some (handle_user_details_query fetch (pyStrip (parts.getD 1 [])))
    else byType
  else byType

/-- The query-type decision sequence as the spec words it: a flat
first-match chain of six rules, rule 1 being the conjunction of the
count-keyword cue and the one-column-one-row shape. -/
def classify_spec (question : Str) (columns : List Str) (rows : List Row) : Str :=
  let q := lowerStr question
  if (pyIn (strLit "count") q || pyIn (strLit "how many") q) &&
      (columns.length == 1 && rows.length == 1) then strLit "count"
  else if rows.length == 1 then strLit "single_entity"
  else if pyIn (strLit "list") q || pyIn (strLit "show") q || pyIn (strLit "all") q then
    strLit "list"
  else if columns.any aggColumn then strLit "aggregation"
  else if rows.length > 1 then strLit "list"
  else strLit "general"

/-- The entity-namer precedence chain as the spec words it: four rules,
first match wins. -/
def extract_entity_spec (question : Str) : Str :=
  let q := lowerStr question
  if pyIn (strLit "user") q || pyIn (strLit "student") q then strLit "users"
  else if pyIn (strLit "internship") q || pyIn (strLit "job") q then strLit "internships"
  else if pyIn (strLit "application") q || pyIn (strLit "applied") q then strLit "applications"
  else strLit "items"

/-- Everything after the first occurrence of `sep`, or `none` when `sep`
does not occur. -/
def afterFirstOcc (sep : Str) : Str → Option Str
  | [] => none
  | c :: cs =>
    if sep.isPrefixOf (c :: cs) then some ((c :: cs).drop sep.length)
    else afterFirstOcc sep cs

/-- The username formula claim C3 states: everything after the first
occurrence of `"details of"` in the lower-cased question, with
surrounding whitespace trimmed. -/
def claimed_user_name (question : Str) : Str :=
  pyStrip ((afterFirstOcc detailsOfLit (lowerStr question)).getD [])

/-! Helper lemmas about the embedded Python string operations. -/

theorem map_fixed_eq_self {f : Nat → Nat} {l : Str} (h : ∀ a ∈ l, f a = a) : l.map f = l :=
  (List.map_congr_left h).trans (List.map_id l)

theorem lowerCode_lowerCode (n : Nat) : lowerCode (lowerCode n) = lowerCode n := by
  by_cases h : 65 ≤ n ∧ n ≤ 90
  · simp only [lowerCode, if_pos h]
    rw [if_neg (by omega)]
  · simp only [lowerCode, if_neg h]

theorem lowerStr_mem_fixed {c : Nat} {s : Str} (h : c ∈ lowerStr s) : lowerCode c = c := by
  obtain ⟨a, _, rfl⟩ := List.mem_map.mp h
  exact lowerCode_lowerCode a

theorem mem_pyStrip {c : Nat} {s : Str} (h : c ∈ pyStrip s) : c ∈ s := by
  unfold pyStrip at h
  rw [List.mem_reverse] at h
  have h1 := (List.dropWhile_sublist _).subset h
  rw [List.mem_reverse] at h1
  exact (List.dropWhile_sublist _).subset h1

theorem getD_mem_or {α : Type} (l : List α) (i : Nat) (d : α) :
    l.getD i d ∈ l ∨ l.getD i d = d := by
  by_cases h : i < l.length
  · left
    rw [List.getD_eq_getElem l d h]
    exact List.get_mem l i h
  · right
    exact List.getD_eq_default l d (by omega)

theorem pySplitCore_length_pos (sep : Str) (fuel : Nat) (l acc : Str) :
    1 ≤ (pySplitCore sep fuel l acc).length := by
  induction fuel, l, acc using pySplitCore.induct sep with
  | case1 fuel acc => simp [pySplitCore]
  | case2 c cs acc => simp [pySplitCore]
  | case3 fuel c cs acc h ih => simp [pySplitCore, h]
  | case4 fuel c cs acc h ih => simpa [pySplitCore, h] using ih

theorem pySplitCore_length_two (sep : Str) (hsep : sep.isEmpty = false) (fuel : Nat)
    (l acc : Str) (hfuel : l.length ≤ fuel) (hin : pyIn sep l = true) :
    2 ≤ (pySplitCore sep fuel l acc).length := by
  induction fuel, l, acc using pySplitCore.induct sep with
  | case1 fuel acc => simp [pyIn, hsep] at hin
  | case2 c cs acc => simp at hfuel
  | case3 fuel c cs acc h ih =>
    simp only [pySplitCore, h, if_true, List.length_cons]
    have := pySplitCore_length_pos sep fuel (cs.drop (sep.length - 1)) []
    omega
  | case4 fuel c cs acc h ih =>
    have hin' : pyIn sep cs = true := by
      simp only [pyIn, Bool.or_eq_true] at hin
      rcases hin with hpre | htail
      · exact absurd hpre h
      · exact htail
    have hfuel' : cs.length ≤ fuel := by simp at hfuel; omega
    simpa [pySplitCore, h] using ih hfuel' hin'

theorem mem_pySplitCore (sep : Str) (fuel : Nat) (l acc : Str) (part : Str)
    (hp : part ∈ pySplitCore sep fuel l acc) : ∀ c ∈ part, c ∈ l ∨ c ∈ acc := by
  induction fuel, l, acc using pySplitCore.induct sep generalizing part with
  | case1 fuel acc =>
    intro c hc
    simp only [pySplitCore, List.mem_singleton] at hp
    subst hp
    right
    simpa using hc
  | case2 c0 cs acc =>
    intro c hc
    simp only [pySplitCore, List.mem_singleton] at hp
    subst hp
    right
    simpa using hc
  | case3 fuel c0 cs acc h ih =>
    intro c hc
    simp only [pySplitCore, h, if_true, List.mem_cons] at hp
    rcases hp with rfl | hp
    · right
      simpa using hc
    · rcases ih _ hp c hc with hl | hr
      · left
        exact List.mem_cons_of_mem c0 ((List.drop_sublist _ _).subset hl)
      · simp at hr
  | case4 fuel c0 cs acc h ih =>
    intro c hc
    have hp' : part ∈ pySplitCore sep fuel cs (c0 :: acc) := by
      simpa [pySplitCore, h] using hp
    rcases ih _ hp' c hc with hl | hr
    · left
      exact List.mem_cons_of_mem c0 hl
    · rcases List.mem_cons.mp hr with rfl | hr2
      · left
        exact List.mem_cons_self c cs
      · right
        exact hr2

theorem extract_user_name_lower (q : Str) :
    lowerStr (extract_user_name q) = extract_user_name q := by
  apply map_fixed_eq_self
  intro c hc
  have hc1 : c ∈ (pySplit (lowerStr q) detailsOfLit).getD 1 [] := mem_pyStrip hc
  rcases getD_mem_or (pySplit (lowerStr q) detailsOfLit) 1 [] with hmem | hnil
  · rcases mem_pySplitCore detailsOfLit _ _ _ _ hmem c hc1 with hl | hr
    · exact lowerStr_mem_fixed hl
    · simp at hr
  · rw [hnil] at hc1
    simp at hc1

theorem generate_response_details (fetch : Str → Option UserInfo) (q : Str) (cols : List Str)
    (rows : List Row) (h : pyIn detailsOfLit (lowerStr q) = true) :
    generate_response fetch q cols rows =
      some (handle_user_details_query fetch (extract_user_name q)) := by
  have hlen : 1 < (pySplit (lowerStr q) detailsOfLit).length := by
    have := pySplitCore_length_two detailsOfLit (by decide) (lowerStr q).length (lowerStr q) []
      (Nat.le_refl _) h
    simpa [pySplit] using this
  simp only [generate_response, h, if_true]
  rw [if_pos hlen]
  rfl

/-! Helper lemmas about the tabular renderer. -/

theorem updateWidths_le (r : Row) : ∀ ws : List Nat, r.length ≤ ws.length →
    ∃ ws', updateWidths ws r = some ws' ∧ ws'.length = ws.length := by
  induction r with
  | nil => intro ws _; exact ⟨ws, by cases ws <;> rfl, rfl⟩
  | cons v vs ih =>
    intro ws h
    cases ws with
    | nil => simp at h
    | cons w ws =>
      obtain ⟨t, ht, hlen⟩ := ih ws (by simpa using h)
      refine ⟨max w (format_value v).length :: t, ?_, by simp [hlen]⟩
      simp [updateWidths, ht]

theorem updateWidths_eq (r : Row) : ∀ ws : List Nat, r.length = ws.length →
    updateWidths ws r = some (List.zipWith (fun w v => max w (format_value v).length) ws r) := by
  induction r with
  | nil =>
    intro ws h
    cases ws with
    | nil => simp [updateWidths]
    | cons w ws => simp at h
  | cons v vs ih =>
    intro ws h
    cases ws with
    | nil => simp at h
    | cons w ws =>
      simp only [updateWidths, List.zipWith_cons_cons]
      rw [ih ws (by simpa using h)]
      rfl

theorem foldWidths_le (rs : List Row) : ∀ ws : List Nat, (∀ r ∈ rs, r.length ≤ ws.length) →
    ∃ ws', foldWidths ws rs = some ws' ∧ ws'.length = ws.length := by
  induction rs with
  | nil => intro ws _; exact ⟨ws, rfl, rfl⟩
  | cons r rs ih =>
    intro ws h
    obtain ⟨ws1, h1, hl1⟩ := updateWidths_le r ws (h r (by simp))
    obtain ⟨ws', h2, hl2⟩ := ih ws1 (fun r' hr' => by rw [hl1]; exact h r' (by simp [hr']))
    refine ⟨ws', ?_, by omega⟩
    simp [foldWidths, h1, h2]

theorem foldWidths_getD (rs : List Row) : ∀ ws : List Nat, (∀ r ∈ rs, r.length = ws.length) →
    ∃ ws', foldWidths ws rs = some ws' ∧ ws'.length = ws.length ∧
      ∀ i, i < ws.length →
        ws'.getD i 0 =
          (rs.map (fun r => (format_value (r.getD i Value.vnone)).length)).foldl max
            (ws.getD i 0) := by
  induction rs with
  | nil =>
    intro ws _
    exact ⟨ws, rfl, rfl, fun i _ => rfl⟩
  | cons r rs ih =>
    intro ws h
    have hr : r.length = ws.length := h r (by simp)
    have hupd := updateWidths_eq r ws hr
    have hlen1 : (List.zipWith (fun w v => max w (format_value v).length) ws r).length =
        ws.length := by
      simp [List.length_zipWith]
      omega
    obtain ⟨ws', h2, hl2, hget⟩ :=
      ih (List.zipWith (fun w v => max w (format_value v).length) ws r)
        (fun r' hr' => by rw [hlen1]; exact h r' (by simp [hr']))
    refine ⟨ws', ?_, by omega, ?_⟩
    · simp [foldWidths, hupd, h2]
    · intro i hi
      have hi1 : i < (List.zipWith (fun w v => max w (format_value v).length) ws r).length := by
        omega
      rw [hget i hi1]
      simp only [List.map_cons, List.foldl_cons]
      congr 1
      rw [List.getD_eq_getElem _ 0 hi1, List.getD_eq_getElem _ 0 hi]
      simp only [List.getElem_zipWith]
      congr 1
      rw [List.getD_eq_getElem _ Value.vnone (by omega)]

theorem formatCells_le (r : Row) : ∀ ws : List Nat, r.length ≤ ws.length →
    ∃ cells, formatCells ws r = some cells := by
  induction r with
  | nil => intro ws _; exact ⟨[], by cases ws <;> rfl⟩
  | cons v vs ih =>
    intro ws h
    cases ws with
    | nil => simp at h
    | cons w ws =>
      obtain ⟨t, ht⟩ := ih ws (by simpa using h)
      exact ⟨ljust (format_value v) w :: t, by simp [formatCells, ht]⟩

theorem formatRows_le (rs : List Row) (ws : List Nat) (h : ∀ r ∈ rs, r.length ≤ ws.length) :
    ∃ lines, formatRows ws rs = some lines ∧ lines.length = rs.length := by
  induction rs with
  | nil => exact ⟨[], rfl, rfl⟩
  | cons r rs ih =>
    obtain ⟨cells, hcells⟩ := formatCells_le r ws (h r (by simp))
    obtain ⟨lines, hlines, hlen⟩ := ih (fun r' hr' => h r' (by simp [hr']))
    refine ⟨List.intercalate (strLit " | ") cells :: lines, ?_, by simp [hlen]⟩
    simp [formatRows, formatRowLine, hcells, hlines]

theorem computeWidths_isSome (cols : List Str) (rows : List Row) (limit : Nat)
    (h : ∀ r ∈ rows.take limit, r.length = cols.length) :
    ∃ ws, computeWidths cols rows limit = some ws ∧ ws.length = cols.length := by
  obtain ⟨ws, hws, hlen⟩ := foldWidths_le (rows.take limit) (cols.map List.length)
    (fun r hr => by rw [List.length_map]; exact Nat.le_of_eq (h r hr))
  exact ⟨ws, hws, by simpa using hlen⟩

theorem tabular_isSome (cols : List Str) (rows : List Row) (limit : Nat)
    (h : ∀ r ∈ rows.take limit, r.length = cols.length) :
    (format_tabular_data cols rows limit).isSome = true := by
  cases rows with
  | nil => simp [format_tabular_data]
  | cons r0 rest =>
    obtain ⟨ws, hws, hwlen⟩ := computeWidths_isSome cols (r0 :: rest) limit h
    obtain ⟨lines, hlines, _⟩ := formatRows_le ((r0 :: rest).take limit) ws
      (fun r hr => by rw [hwlen]; exact Nat.le_of_eq (h r hr))
    simp [format_tabular_data, hws, hlines]

/-! Helper lemmas about the classifier and the templates. -/

theorem classifyRest_ne_count (q : Str) (cols : List Str) (rows : List Row) :
    classifyRest q cols rows ≠ strLit "count" := by
  unfold classifyRest
  split
  · decide
  split
  · decide
  split
  · decide
  split
  · decide
  · decide

theorem classifyRest_single (q : Str) (cols : List Str) (rows : List Row)
    (h : classifyRest q cols rows = strLit "single_entity") : rows.length = 1 := by
  unfold classifyRest at h
  split at h
  · next hc => simpa using hc
  split at h
  · exact absurd h (by decide)
  split at h
  · exact absurd h (by decide)
  split at h
  · exact absurd h (by decide)
  · exact absurd h (by decide)

theorem identify_count_shape (q : Str) (cols : List Str) (rows : List Row)
    (h : identify_query_type q cols rows = strLit "count") :
    cols.length = 1 ∧ rows.length = 1 := by
  simp only [identify_query_type] at h
  split at h
  · split at h
    · next hsh => simpa using hsh
    · exact absurd h (classifyRest_ne_count _ _ _)
  · exact absurd h (classifyRest_ne_count _ _ _)

theorem identify_single_shape (q : Str) (cols : List Str) (rows : List Row)
    (h : identify_query_type q cols rows = strLit "single_entity") : rows.length = 1 := by
  simp only [identify_query_type] at h
  split at h
  · split at h
    · exact absurd h (by decide)
    · exact classifyRest_single _ _ _ h
  · exact classifyRest_single _ _ _ h

theorem entityDetails_isSome (cols : List Str) : ∀ r : Row, cols.length ≤ r.length →
    (entityDetails cols r).isSome = true := by
  induction cols with
  | nil => intro r _; simp [entityDetails]
  | cons c cs ih =>
    intro r h
    cases r with
    | nil => simp at h
    | cons v vs =>
      have h2 := ih vs (by simpa using h)
      obtain ⟨t, ht⟩ := Option.isSome_iff_exists.mp h2
      simp [entityDetails, ht]

theorem templates_isSome (q : Str) (cols : List Str) (rows : List Row)
    (hrect : ∀ r ∈ rows, r.length = cols.length) :
    (if identify_query_type q cols rows = strLit "count" then
      generate_count_response q cols rows
    else if identify_query_type q cols rows = strLit "list" then
      generate_list_response q cols rows
    else if identify_query_type q cols rows = strLit "single_entity" then
      generate_single_entity_response q cols rows
    else if identify_query_type q cols rows = strLit "aggregation" then
      generate_aggregation_response q cols rows
    else generate_general_response q cols rows).isSome = true := by
  by_cases h1 : identify_query_type q cols rows = strLit "count"
  · rw [if_pos h1]
    obtain ⟨hc, hr⟩ := identify_count_shape _ _ _ h1
    obtain ⟨r, rfl⟩ := List.length_eq_one.mp hr
    have hrl : r.length = 1 := by rw [hrect r (by simp), hc]
    obtain ⟨v, rfl⟩ := List.length_eq_one.mp hrl
    simp only [generate_count_response, List.head?_cons]
    split
    · simp
    split <;> simp
  rw [if_neg h1]
  by_cases h2 : identify_query_type q cols rows = strLit "list"
  · rw [if_pos h2]
    simp only [generate_list_response]
    split
    · simp
    · have := tabular_isSome cols rows 10 (fun r hr => hrect r ((List.take_sublist _ _).subset hr))
      obtain ⟨t, ht⟩ := Option.isSome_iff_exists.mp this
      simp [ht]
  rw [if_neg h2]
  by_cases h3 : identify_query_type q cols rows = strLit "single_entity"
  · rw [if_pos h3]
    have hr := identify_single_shape _ _ _ h3
    obtain ⟨r, rfl⟩ := List.length_eq_one.mp hr
    have hrl : cols.length ≤ r.length := Nat.le_of_eq (hrect r (by simp)).symm
    obtain ⟨d, hd⟩ := Option.isSome_iff_exists.mp (entityDetails_isSome cols r hrl)
    simp [generate_single_entity_response, hd]
  rw [if_neg h3]
  by_cases h4 : identify_query_type q cols rows = strLit "aggregation"
  · rw [if_pos h4]
    have := tabular_isSome cols rows 10 (fun r hr => hrect r ((List.take_sublist _ _).subset hr))
    obtain ⟨t, ht⟩ := Option.isSome_iff_exists.mp this
    simp [generate_aggregation_response, ht]
  rw [if_neg h4]
  have := tabular_isSome cols rows 10 (fun r hr => hrect r ((List.take_sublist _ _).subset hr))
  obtain ⟨t, ht⟩ := Option.isSome_iff_exists.mp this
  simp [generate_general_response, ht]

/-! The claims. -/

/-- C1: the query-type classifier is exactly the six-rule first-match
decision sequence of the spec: `count` on a count keyword with a
one-column one-row result, else `single_entity` on one row, else `list`
on a list/show/all keyword, else `aggregation` on an avg/sum/max/min
column, else `list` on more than one row, else `general`. -/
theorem claim_C1_classifier_matches_spec (q : Str) (cols : List Str) (rows : List Row) :
    identify_query_type q cols rows = classify_spec q cols rows := by
  simp only [identify_query_type, classify_spec, classifyRest]
  by_cases hkw : (pyIn (strLit "count") (lowerStr q) || pyIn (strLit "how many") (lowerStr q))
      = true
  · by_cases hsh : (cols.length == 1 && rows.length == 1) = true
    · simp [hkw, hsh]
    · simp [hkw, hsh]
  · simp [hkw]

/-- C2 counterexample: on a zero-row result with an aggregate column and
no list/show/all keyword the classifier returns `aggregation`, so the
claim that only `general` or `list` can come out of a zero-row result is
false. -/
theorem claim_C2_zero_rows_counterexample :
    identify_query_type (strLit "what is the average stipend") [strLit "avg(stipend)"] [] =
      strLit "aggregation" ∧
    pyIn (strLit "list") (lowerStr (strLit "what is the average stipend")) = false ∧
    pyIn (strLit "show") (lowerStr (strLit "what is the average stipend")) = false ∧
    pyIn (strLit "all") (lowerStr (strLit "what is the average stipend")) = false ∧
    strLit "aggregation" ≠ strLit "general" :=
  ⟨by decide, by decide, by decide, by decide, by decide⟩

/-- C2 amended: on a zero-row result the classifier returns `list` when
the lower-cased question contains list/show/all, else `aggregation` when
some column name, lower-cased, starts with avg/sum/max/min, else
`general`. -/
theorem claim_C2_zero_rows_amended (q : Str) (cols : List Str) :
    identify_query_type q cols [] =
      (if pyIn (strLit "list") (lowerStr q) || pyIn (strLit "show") (lowerStr q) ||
          pyIn (strLit "all") (lowerStr q) then strLit "list"
       else if cols.any aggColumn then strLit "aggregation"
       else strLit "general") := by
  simp only [identify_query_type, classifyRest]
  by_cases hkw : (pyIn (strLit "count") (lowerStr q) || pyIn (strLit "how many") (lowerStr q))
      = true <;>
    simp [hkw]

/-- C3 counterexample: when `"details of"` occurs twice, the username the
dispatcher extracts is the segment between the two occurrences (here the
empty string), not everything after the first occurrence (here
`"details of bob"`), so the claim's username formula is false. -/
theorem claim_C3_details_counterexample :
    extract_user_name (strLit "show details of details of bob") = [] ∧
    claimed_user_name (strLit "show details of details of bob") = strLit "details of bob" ∧
    generate_response (fun _ => none) (strLit "show details of details of bob") [] [] =
      some (strLit "No record found for ") ∧
    extract_user_name (strLit "show details of details of bob") ≠
      claimed_user_name (strLit "show details of details of bob") :=
  ⟨by decide, by decide, by decide, by decide⟩

/-- C3 amended: for every question whose lower-cased text contains
`"details of"`, `generate_response` bypasses classification and the
shape-based templates entirely (regardless of the supplied columns and
rows), and the username passed to the user-detail lookup is the
`split`-segment of the lower-cased question that follows the first
occurrence of `"details of"` (it ends at the next occurrence, if any),
with surrounding whitespace trimmed. -/
theorem claim_C3_details_amended (fetch : Str → Option UserInfo) (q : Str) (cols : List Str)
    (rows : List Row) (h : pyIn detailsOfLit (lowerStr q) = true) :
    generate_response fetch q cols rows =
      some (handle_user_details_query fetch (extract_user_name q)) :=
  generate_response_details fetch q cols rows h

/-- Witness for C3 amended at a concrete question. -/
theorem claim_C3_details_amended_witness :
    generate_response (fun _ => none) (strLit "details of alice") [] [] =
      some (handle_user_details_query (fun _ => none)
        (extract_user_name (strLit "details of alice"))) :=
  claim_C3_details_amended (fun _ => none) (strLit "details of alice") [] [] (by decide)

/-- C4: the count template answers "I found no {entity} matching your
criteria." when the first value of the first row equals 0, "There is 1
{singular entity} matching your criteria." when it equals 1, and "There
are {n} {entity} matching your criteria." otherwise; and the round-trip
scenario of the spec holds: "How many users are there?" with a
one-column one-row result of 42 classifies as `count` and renders
"There are 42 users matching your criteria.". -/
theorem claim_C4_count_template (q : Str) (cols : List Str) (rows : List Row) (r0 : Row)
    (n : Value) (h1 : rows.head? = some r0) (h2 : r0.head? = some n) :
    generate_count_response q cols rows = some (
      if valueEqInt n 0 then
        strLit "I found no " ++ extract_entity_name q ++ strLit " matching your criteria."
      else if valueEqInt n 1 then
        strLit "There is 1 " ++ (extract_entity_name q).dropLast ++
          strLit " matching your criteria."
      else
        strLit "There are " ++ format_value n ++ strLit " " ++ extract_entity_name q ++
          strLit " matching your criteria.") ∧
    identify_query_type (strLit "How many users are there?") [strLit "count(*)"]
      [[Value.vint 42]] = strLit "count" ∧
    generate_count_response (strLit "How many users are there?") [strLit "count(*)"]
      [[Value.vint 42]] = some (strLit "There are 42 users matching your criteria.") := by
  refine ⟨?_, by decide, by decide⟩
  simp only [generate_count_response, h1, h2]
  cases hv0 : valueEqInt n 0 <;> cases hv1 : valueEqInt n 1 <;> simp [hv0, hv1]

/-- Witness for C4 at a concrete zero-count input. -/
theorem claim_C4_count_template_witness :
    generate_count_response (strLit "how many users") [strLit "count(*)"] [[Value.vint 0]] =
      some (strLit "I found no users matching your criteria.") ∧
    identify_query_type (strLit "How many users are there?") [strLit "count(*)"]
      [[Value.vint 42]] = strLit "count" ∧
    generate_count_response (strLit "How many users are there?") [strLit "count(*)"]
      [[Value.vint 42]] = some (strLit "There are 42 users matching your criteria.") :=
  claim_C4_count_template (strLit "how many users") [strLit "count(*)"] [[Value.vint 0]]
    [Value.vint 0] (Value.vint 0) rfl rfl

/-- C5: on a non-empty rectangular row list the tabular renderer
succeeds, emits exactly `min limit (number of rows)` data rows (so at
most `limit`), and appends the trailing `"... and N more rows"` line if
and only if the number of rows exceeds `limit`, with N equal to the
number of rows minus `limit`. -/
theorem claim_C5_truncation (cols : List Str) (rows : List Row) (limit : Nat)
    (hne : rows ≠ []) (hrect : ∀ r ∈ rows, r.length = cols.length) :
    (computeWidths cols rows limit).isSome = true ∧
    ∀ ws : List Nat, computeWidths cols rows limit = some ws →
      (formatRows ws (rows.take limit)).isSome = true ∧
      ∀ lines : List Str, formatRows ws (rows.take limit) = some lines →
        lines.length = min limit rows.length ∧
        format_tabular_data cols rows limit = some
          (tableHeader cols ws ++ [10] ++ tableSeparator cols ws ++ [10] ++
            List.intercalate [10] (lines ++
              (if limit < rows.length then [moreRowsLine (rows.length - limit)] else []))) := by
  have htake : ∀ r ∈ rows.take limit, r.length = cols.length :=
    fun r hr => hrect r ((List.take_sublist _ _).subset hr)
  obtain ⟨ws0, hws0, hwlen0⟩ := computeWidths_isSome cols rows limit htake
  refine ⟨by simp [hws0], ?_⟩
  intro ws hws
  rw [hws0] at hws
  injection hws with hws
  subst hws
  obtain ⟨lines0, hlines0, hllen0⟩ := formatRows_le (rows.take limit) ws0
    (fun r hr => by rw [hwlen0]; exact Nat.le_of_eq (htake r hr))
  refine ⟨by simp [hlines0], ?_⟩
  intro lines hlines
  rw [hlines0] at hlines
  injection hlines with hlines
  subst hlines
  constructor
  · rw [hllen0, List.length_take]
  · cases rows with
    | nil => exact absurd rfl hne
    | cons a rest =>
      simp only [format_tabular_data, List.isEmpty_cons, hws0, hlines0]
      rfl

/-- Witness for C5 at a one-column three-row input truncated to two rows. -/
theorem claim_C5_truncation_witness :
    (computeWidths [strLit "a"] [[Value.vint 1], [Value.vint 22], [Value.vint 3]] 2).isSome
      = true ∧
    (([strLit "1 ", strLit "22"] : List Str).length = min 2 3 ∧
      format_tabular_data [strLit "a"] [[Value.vint 1], [Value.vint 22], [Value.vint 3]] 2 = some
        (tableHeader [strLit "a"] [2] ++ [10] ++ tableSeparator [strLit "a"] [2] ++ [10] ++
          List.intercalate [10] (([strLit "1 ", strLit "22"] : List Str) ++
            (if 2 < 3 then [moreRowsLine (3 - 2)] else [])))) := by
  have h := claim_C5_truncation [strLit "a"] [[Value.vint 1], [Value.vint 22], [Value.vint 3]] 2
    (by decide) (by decide)
  exact ⟨h.1, (h.2 [2] (by decide)).2 [strLit "1 ", strLit "22"] (by decide)⟩

/-- C6: when the first `limit` rows are rectangular the width
computation succeeds, yields one width per column, and each column's
width is the maximum of the column header's length and the formatted
lengths of that column's values among the first `limit` rows only;
consequently any row list agreeing on the first `limit` rows yields the
same widths. -/
theorem claim_C6_width_formula (cols : List Str) (rows : List Row) (limit : Nat)
    (hrect : ∀ r ∈ rows.take limit, r.length = cols.length) :
    (computeWidths cols rows limit).isSome = true ∧
    (∀ ws : List Nat, computeWidths cols rows limit = some ws →
      ws.length = cols.length ∧
      ∀ i, i < cols.length →
        ws.getD i 0 = ((rows.take limit).map
          (fun r => (format_value (r.getD i Value.vnone)).length)).foldl max
          ((cols.getD i []).length)) ∧
    (∀ rows2 : List Row, rows2.take limit = rows.take limit →
      computeWidths cols rows2 limit = computeWidths cols rows limit) := by
  obtain ⟨ws0, hws0, hwlen0, hget0⟩ := foldWidths_getD (rows.take limit) (cols.map List.length)
    (fun r hr => by rw [List.length_map]; exact hrect r hr)
  have hws0' : computeWidths cols rows limit = some ws0 := hws0
  refine ⟨by simp [hws0'], ?_, ?_⟩
  · intro ws hws
    rw [hws0'] at hws
    injection hws with hws
    subst hws
    refine ⟨by simpa using hwlen0, ?_⟩
    intro i hi
    have hi' : i < (cols.map List.length).length := by simpa using hi
    rw [hget0 i hi']
    congr 1
    rw [List.getD_eq_getElem _ 0 hi', List.getD_eq_getElem _ [] hi]
    simp
  · intro rows2 h2
    simp only [computeWidths, h2]

/-- Witness for C6 at a two-column two-row input with limit 1. -/
theorem claim_C6_width_formula_witness :
    (computeWidths [strLit "ab", strLit "c"]
      [[Value.vint 123, Value.vnone], [Value.vint 7, Value.vstr (strLit "long")]] 1).isSome
      = true ∧
    (([3, 4] : List Nat).length = 2 ∧
      ([3, 4] : List Nat).getD 0 0 = (([[Value.vint 123, Value.vnone]] : List Row).map
        (fun r => (format_value (r.getD 0 Value.vnone)).length)).foldl max
        (([strLit "ab", strLit "c"].getD 0 []).length)) ∧
    computeWidths [strLit "ab", strLit "c"]
        [[Value.vint 123, Value.vnone], [Value.vint 55555, Value.vnone]] 1 =
      computeWidths [strLit "ab", strLit "c"]
        [[Value.vint 123, Value.vnone], [Value.vint 7, Value.vstr (strLit "long")]] 1 := by
  have h := claim_C6_width_formula [strLit "ab", strLit "c"]
    [[Value.vint 123, Value.vnone], [Value.vint 7, Value.vstr (strLit "long")]] 1 (by decide)
  exact ⟨h.1, ⟨(h.2.1 [3, 4] (by decide)).1, (h.2.1 [3, 4] (by decide)).2 0 (by decide)⟩,
    h.2.2 [[Value.vint 123, Value.vnone], [Value.vint 55555, Value.vnone]] (by decide)⟩

/-- C7: the entity namer equals the fixed four-rule precedence chain of
the spec (users, internships, applications, items), an earlier rule
masking a later one; in particular "user applications" yields "users"
even though the later applications keyword is also present. -/
theorem claim_C7_entity_precedence :
    (∀ q : Str, extract_entity_name q = extract_entity_spec q) ∧
    extract_entity_name (strLit "user applications") = strLit "users" ∧
    pyIn (strLit "application") (lowerStr (strLit "user applications")) = true :=
  ⟨fun _ => rfl, by decide, by decide⟩

/-- C8: when the external user-detail lookup yields no record, the
user-detail path returns exactly "No record found for {username}" as its
result. -/
theorem claim_C8_no_record (fetch : Str → Option UserInfo) (u : Str) (h : fetch u = none) :
    handle_user_details_query fetch u = strLit "No record found for " ++ u := by
  simp [handle_user_details_query, h]

/-- Witness for C8 at a concrete username with an empty lookup. -/
theorem claim_C8_no_record_witness :
    handle_user_details_query (fun _ => none) (strLit "john") =
      strLit "No record found for john" :=
  claim_C8_no_record (fun _ => none) (strLit "john") rfl

/-- C9: on the "details of" path the username handed to the user-detail
lookup comes from the lower-cased copy of the question, so it is always
fully lower-cased (it is a fixed point of lower-casing). -/
theorem claim_C9_username_lowercased (fetch : Str → Option UserInfo) (q : Str)
    (cols : List Str) (rows : List Row) (h : pyIn detailsOfLit (lowerStr q) = true) :
    generate_response fetch q cols rows =
      some (handle_user_details_query fetch (extract_user_name q)) ∧
    lowerStr (extract_user_name q) = extract_user_name q :=
  ⟨generate_response_details fetch q cols rows h, extract_user_name_lower q⟩

/-- Witness for C9 at a mixed-case question: the lookup receives
"alice", not "Alice". -/
theorem claim_C9_username_lowercased_witness :
    generate_response (fun _ => none) (strLit "details of Alice") [] [] =
      some (strLit "No record found for alice") ∧
    lowerStr (extract_user_name (strLit "details of Alice")) =
      extract_user_name (strLit "details of Alice") :=
  claim_C9_username_lowercased (fun _ => none) (strLit "details of Alice") [] [] (by decide)

/-- C10: a `count` classification forces exactly one column and one row,
a `single_entity` classification forces exactly one row, and on every
rectangular input `generate_response` is total (no template indexes out
of bounds). -/
theorem claim_C10_safe_indexing :
    (∀ (q : Str) (cols : List Str) (rows : List Row),
      identify_query_type q cols rows = strLit "count" →
        cols.length = 1 ∧ rows.length = 1) ∧
    (∀ (q : Str) (cols : List Str) (rows : List Row),
      identify_query_type q cols rows = strLit "single_entity" → rows.length = 1) ∧
    (∀ (fetch : Str → Option UserInfo) (q : Str) (cols : List Str) (rows : List Row),
      (∀ r ∈ rows, r.length = cols.length) →
      (generate_response fetch q cols rows).isSome = true) := by
  refine ⟨identify_count_shape, identify_single_shape, ?_⟩
  intro fetch q cols rows hrect
  simp only [generate_response]
  split
  · split
    · simp
    · exact templates_isSome q cols rows hrect
  · exact templates_isSome q cols rows hrect

/-- Witness for C10 at concrete count, single-entity and dispatch
inputs. -/
theorem claim_C10_safe_indexing_witness :
    ([strLit "count(*)"].length = 1 ∧ ([[Value.vint 42]] : List Row).length = 1) ∧
    ([[Value.vint 5, Value.vnone]] : List Row).length = 1 ∧
    (generate_response (fun _ => none) (strLit "how many users are there?") [strLit "count(*)"]
      [[Value.vint 42]]).isSome = true :=
  ⟨claim_C10_safe_indexing.1 (strLit "how many users are there?") [strLit "count(*)"]
      [[Value.vint 42]] (by decide),
    claim_C10_safe_indexing.2.1 (strLit "info for x") [strLit "name", strLit "age"]
      [[Value.vint 5, Value.vnone]] (by decide),
    claim_C10_safe_indexing.2.2 (fun _ => none) (strLit "how many users are there?")
      [strLit "count(*)"] [[Value.vint 42]] (by decide)⟩
